import Mathlib

/-!
Shallow embedding of the todoServer repository (Go): the request router,
handlers and identifier validation from `handlers.go`, the mux wiring and
reply helpers from the second source file, and a spec-modelled Store Adapter
(the external `todo-cli` list library).  HTTP methods are the raw strings the
Go code switches on; the path is the URL path after the mount prefix has been
stripped, exactly as the handler receives it.
-/

namespace TodoServer

/-- One to-do entry: task text, completion flag, creation time
(`todo-cli`'s item, as described by the spec's data model). -/
structure Item where
  task : String
  done : Bool
  createdAt : Nat
deriving DecidableEq, Repr

/-- A JSON value, used to model the decoded request body of `addHandler`. -/
inductive JVal where
  | jnull : JVal
  | jbool : Bool → JVal
  | jnum : Int → JVal
  | jstr : String → JVal
  | jarr : List JVal → JVal
  | jobj : List (String × JVal) → JVal
deriving Repr

/-- An incoming HTTP request as the handlers see it: the method string, the
URL path (already stripped of the `/todo` mount prefix for the todo router),
whether the query string contains a `complete` key, and the request body as
parsed JSON (`none` when the body is not syntactically valid JSON). -/
structure Request where
  method : String
  path : String
  hasComplete : Bool
  body : Option JVal

/-- The reply written to the client: `text`/`json` mirror `replyTextContent`
and `replyJSONContent`, `error` mirrors `replyError` (the message is only
logged; the client receives the standard status text), and `panicked` marks a
Go runtime panic (an out-of-range slice). -/
inductive Reply where
  | text : Nat → String → Reply
  | json : Nat → List Item → Reply
  | error : Nat → String → Reply
  | panicked : Reply
deriving DecidableEq, Repr

/-- Whether the handler invoked `list.Save` and with which list. -/
inductive Effect where
  | none : Effect
  | save : List Item → Effect
deriving DecidableEq, Repr

/-- Numeric value of a non-empty all-digit character list (base 10);
`none` if the list is empty or holds a non-digit. -/
def digitsVal (cs : List Char) : Option Nat :=
  match cs with
  | [] => Option.none
  | _ =>
    cs.foldl
      (fun acc c =>
        acc.bind fun n => if c.isDigit then some (n * 10 + (c.toNat - 48)) else Option.none)
      (some 0)

/-- Smallest value of Go's 64-bit `int`. -/
def int64Min : Int := -9223372036854775808

/-- Largest value of Go's 64-bit `int`. -/
def int64Max : Int := 9223372036854775807

/-- `strconv.Atoi`'s range discipline: a parsed value outside the 64-bit
`int` range fails with `ErrRange` (`none`); in range it is returned. -/
def atoiRange (i : Int) : Option Int :=
  if int64Min ≤ i ∧ i ≤ int64Max then some i else Option.none

/-- `strconv.Atoi`: an optional sign followed by one or more base-10 digits,
consuming the whole string; a numeral whose value falls outside the 64-bit
`int` range is an error (`ErrRange`), as on Go's 64-bit platforms. -/
def atoi (s : String) : Option Int :=
  match s.toList with
  | [] => Option.none
  | '+' :: rest => (digitsVal rest).bind fun n => atoiRange (Int.ofNat n)
  | '-' :: rest => (digitsVal rest).bind fun n => atoiRange (-(n : Int))
  | cs => (digitsVal cs).bind fun n => atoiRange (Int.ofNat n)

/-- The two sentinel errors of `handlers.go`: `ErrInvalidData` and
`ErrNoFound`. -/
inductive VErr where
  | invalidData : VErr
  | noFound : VErr
deriving DecidableEq, Repr

/-- `validateID`: parse the path as an integer; less than one (or unparsable)
is `ErrInvalidData`, larger than the list length is `ErrNoFound`. -/
def validateID (path : String) (list : List Item) : Except VErr Int :=
  match atoi path with
  | Option.none => .error .invalidData
  | some id =>
    if id < 1 then .error .invalidData
    else if id > (list.length : Int) then .error .noFound
    else .ok id

/-- Go slice expression `l[a:b]`: in bounds it yields the elements at indices
`a ≤ k < b`; out of bounds it panics (`none`). -/
def goSlice (l : List Item) (a b : Nat) : Option (List Item) :=
  if a ≤ b ∧ b ≤ l.length then some ((l.drop a).take (b - a)) else Option.none

/-- Modelled from the spec: the Store Adapter's `Add` (from the external
`todo-cli` library, not under src/) appends a new incomplete item with the
current timestamp. -/
def listAdd (l : List Item) (task : String) (now : Nat) : List Item :=
  l ++ [⟨task, false, now⟩]

/-- Modelled from the spec: the Store Adapter's `Delete` (external `todo-cli`)
removes the item at the 1-based identifier, shifting subsequent identifiers
down by one. -/
def listDelete (l : List Item) (id : Nat) : List Item :=
  l.take (id - 1) ++ l.drop id

/-- Modelled from the spec: the Store Adapter's `Complete` (external
`todo-cli`) marks the item at the 1-based identifier as done. -/
def listComplete (l : List Item) (id : Nat) : List Item :=
  match l.get? (id - 1) with
  | some it => l.set (id - 1) { it with done := true }
  | Option.none => l

/-- Decoding a JSON value into the Go struct `{ Task string }` with tag
`json:"task"`: an object without a matching field (or `null`) leaves the zero
value `""`; a matching string field is taken; anything else is a decode
error.  Field names match case-insensitively as in `encoding/json`. -/
def jsonKeyIsTask (k : String) : Bool :=
  k.toList.map Char.toLower = "task".toList

def decodeTask (v : JVal) : Except Unit String :=
  match v with
  | .jnull => .ok ""
  | .jobj fs =>
    match fs.find? (fun p => jsonKeyIsTask p.1) with
    | Option.none => .ok ""
    | some (_, .jstr s) => .ok s
    | some (_, .jnull) => .ok ""
    | some _ => .error ()
  | _ => .error ()

/-- `json.NewDecoder(r.Body).Decode(&item)`: a syntactically invalid body is
an error, otherwise decode per `decodeTask`. -/
def decodeBody (b : Option JVal) : Except Unit String :=
  match b with
  | Option.none => .error ()
  | some v => decodeTask v

/-- `rootHandler`: any path other than `/` is 404; otherwise reply 200 with
the fixed text.  (The method is never inspected.) -/
def rootHandler (r : Request) : Reply :=
  if r.path ≠ "/" then .error 404 ""
  else .text 200 "There's an API here"

/-- `getAllHandler`: the whole list in a JSON envelope, 200. -/
def getAllHandler (list : List Item) : Reply × Effect :=
  (.json 200 list, .none)

/-- `getOneHandler`: the slice `(*list)[id-1:id]` in a JSON envelope, 200;
an out-of-range slice is a runtime panic. -/
def getOneHandler (list : List Item) (id : Nat) : Reply × Effect :=
  match goSlice list (id - 1) id with
  | some xs => (.json 200 xs, .none)
  | Option.none => (.panicked, .none)

/-- `deleteHandler`: delete the item, save; 500 on save failure, else 204
with empty body. -/
def deleteHandler (list : List Item) (id : Nat) (saveErr : Option String) :
    Reply × Effect :=
  let l' := listDelete list id
  match saveErr with
  | some e => (.error 500 e, .save l')
  | Option.none => (.text 204 "", .save l')

/-- `pathHandler` (the PATCH handler, named as in the source): requires the
`complete` query key; then completes the item and saves; 500 on save failure,
else 204 with empty body. -/
def pathHandler (r : Request) (list : List Item) (id : Nat)
    (saveErr : Option String) : Reply × Effect :=
  if ¬ r.hasComplete then (.error 400 "Missing query param 'complete'", .none)
  else
    let l' := listComplete list id
    match saveErr with
    | some e => (.error 500 e, .save l')
    | Option.none => (.text 204 "", .save l')

/-- `addHandler`: decode the body's `task` field (400 on decode error),
append, save; 500 on save failure, else 201 with empty body. -/
def addHandler (r : Request) (list : List Item) (now : Nat)
    (saveErr : Option String) : Reply × Effect :=
  match decodeBody r.body with
  | .error _ => (.error 400 "Invalid JSON", .none)
  | .ok task =>
    let l' := listAdd list task now
    match saveErr with
    | some e => (.error 500 e, .save l')
    | Option.none => (.text 201 "", .save l')

/-- `todoRouter`'s dispatch body (inside the lock): `load` is the result of
`list.Get(todoFile)`, `now` the timestamp `Add` would stamp, `saveErr` the
outcome a `list.Save(todoFile)` call would have.  An empty path dispatches
collection operations, a non-empty path is validated as an identifier and
dispatched to the item operations. -/
def todoRouter (load : Except String (List Item)) (now : Nat)
    (saveErr : Option String) (r : Request) : Reply × Effect :=
  match load with
  | .error e => (.error 500 e, .none)
  | .ok list =>
    if r.path = "" then
      match r.method with
      | "GET" => getAllHandler list
      | "POST" => addHandler r list now saveErr
      | _ => (.error 405 "Method not supported", .none)
    else
      match validateID r.path list with
      | .error .noFound => (.error 404 "not found", .none)
      | .error .invalidData => (.error 400 "invalid data", .none)
      | .ok id =>
        match r.method with
        | "GET" => getOneHandler list id.toNat
        | "DELETE" => deleteHandler list id.toNat saveErr
        | "PATCH" => pathHandler r list id.toNat saveErr
        | _ => (.error 405 "Method not supported", .none)

/-! ## Lock-serialization model for two concurrent Add requests

`newMux` builds one `sync.Mutex` and hands it to `todoRouter`, which runs
`l.Lock()` before `list.Get` and releases only when the handler (including
`list.Save`) has returned.  Two concurrent POST requests are modelled as two
threads, each executing the atomic actions of that critical section in order:
acquire the lock (pc 0→1), load the file into a local list (pc 1→2,
`list.Get`), write back the loaded list extended by its own item (pc 2→3,
`list.Add` + `list.Save` as in `addHandler`), release the lock (pc 3→4).
A schedule is an arbitrary interleaving; a thread whose action is disabled
(lock held by the other) is blocked and the state is unchanged. -/

/-- Shared state of the two-Add interleaving machine: the persisted file, the
lock owner (`none` = free), and each thread's program counter and loaded
local list (`true`/`false` name the two threads). -/
structure AddSt where
  file : List Item
  lock : Option Bool
  pcT : Nat
  pcF : Nat
  locT : List Item
  locF : List Item
deriving DecidableEq, Repr

/-- Program counter of thread `t`. -/
def AddSt.pc (s : AddSt) (t : Bool) : Nat :=
  if t then s.pcT else s.pcF

/-- Loaded local list of thread `t`. -/
def AddSt.loc (s : AddSt) (t : Bool) : List Item :=
  if t then s.locT else s.locF

/-- Set the program counter of thread `t`. -/
def AddSt.setPc (s : AddSt) (t : Bool) (v : Nat) : AddSt :=
  if t then { s with pcT := v } else { s with pcF := v }

/-- Set the loaded local list of thread `t`. -/
def AddSt.setLoc (s : AddSt) (t : Bool) (l : List Item) : AddSt :=
  if t then { s with locT := l } else { s with locF := l }

/-- Set the lock owner. -/
def AddSt.setLock (s : AddSt) (v : Option Bool) : AddSt :=
  { s with lock := v }

/-- Set the persisted file. -/
def AddSt.setFile (s : AddSt) (l : List Item) : AddSt :=
  { s with file := l }

/-- One scheduler step giving thread `t` the processor: acquire (blocks while
the mutex is held), load, add-and-save (the write is `listAdd` of the list
this thread loaded, exactly what `addHandler` saves), release.  A finished
thread does nothing. -/
def addStep (task : Bool → String) (now : Bool → Nat) (s : AddSt) (t : Bool) :
    AddSt :=
  match s.pc t with
  | 0 => if s.lock = Option.none then (s.setPc t 1).setLock (some t) else s
  | 1 => (s.setLoc t s.file).setPc t 2
  | 2 => (s.setFile (listAdd (s.loc t) (task t) (now t))).setPc t 3
  | 3 => (s.setLock Option.none).setPc t 4
  | _ => s

/-- Initial state: file holds `L`, lock free, both threads before the lock. -/
def addMachineStart (L : List Item) : AddSt :=
  ⟨L, Option.none, 0, 0, [], []⟩

/-- Run a schedule (an arbitrary interleaving of the two threads). -/
def addRun (task : Bool → String) (now : Bool → Nat) (L : List Item)
    (sched : List Bool) : AddSt :=
  sched.foldl (addStep task now) (addMachineStart L)

/-- Reachability invariant of the two-Add machine: either nobody has entered
the critical section, or one thread is inside (the other blocked at pc 0), or
the first thread is done and the second is before/inside/after its own
critical section.  The file and the loaded lists at each stage are pinned
down exactly. -/
def AddInv (task : Bool → String) (now : Bool → Nat) (L : List Item)
    (s : AddSt) : Prop :=
  (s.pc true = 0 ∧ s.pc false = 0 ∧ s.lock = Option.none ∧ s.file = L)
  ∨ (∃ t : Bool, s.lock = some t ∧ s.pc (!t) = 0 ∧
      ((s.pc t = 1 ∧ s.file = L) ∨
       (s.pc t = 2 ∧ s.file = L ∧ s.loc t = L) ∨
       (s.pc t = 3 ∧ s.loc t = L ∧ s.file = listAdd L (task t) (now t))))
  ∨ (∃ t : Bool, s.pc t = 4 ∧ s.loc t = L ∧
      ((s.pc (!t) = 0 ∧ s.lock = Option.none ∧
          s.file = listAdd L (task t) (now t)) ∨
       (s.lock = some (!t) ∧
         ((s.pc (!t) = 1 ∧ s.file = listAdd L (task t) (now t)) ∨
          (s.pc (!t) = 2 ∧ s.file = listAdd L (task t) (now t) ∧
            s.loc (!t) = listAdd L (task t) (now t)) ∨
          (s.pc (!t) = 3 ∧ s.loc (!t) = listAdd L (task t) (now t) ∧
            s.file = listAdd (listAdd L (task t) (now t)) (task (!t))
              (now (!t))))) ∨
       (s.pc (!t) = 4 ∧ s.lock = Option.none ∧
          s.loc (!t) = listAdd L (task t) (now t) ∧
          s.file = listAdd (listAdd L (task t) (now t)) (task (!t))
            (now (!t)))))

/-! ## Helper lemmas -/

/-- A successful validation bounds the identifier by the list length and
implies the path segment was non-empty. -/
theorem validateID_ok_bounds {s : String} {L : List Item} {id : Int}
    (h : validateID s L = .ok id) :
    1 ≤ id ∧ id ≤ (L.length : Int) ∧ s ≠ "" := by
  unfold validateID at h
  cases ha : atoi s with
  | none => rw [ha] at h; cases h
  | some v =>
    rw [ha] at h
    dsimp only at h
    split_ifs at h with h1 h2
    cases h
    refine ⟨by omega, by omega, ?_⟩
    rintro rfl
    rw [show atoi "" = Option.none from rfl] at ha
    cases ha

/-- Each scheduler step preserves the reachability invariant of the two-Add
machine. -/
theorem addInv_step (task : Bool → String) (now : Bool → Nat) (L : List Item)
    (s : AddSt) (u : Bool) (h : AddInv task now L s) :
    AddInv task now L (addStep task now s u) := by
  rcases h with ⟨h1, h2, h3, h4⟩ | ⟨t, hl, hp0, hc⟩ | ⟨t, hp4, hloc, hc⟩
  · cases u <;>
      simp_all [addStep, AddInv, AddSt.pc, AddSt.loc, AddSt.setPc,
        AddSt.setLoc, AddSt.setLock, AddSt.setFile]
  · rcases hc with ⟨hq, hf⟩ | ⟨hq, hf, hg⟩ | ⟨hq, hf, hg⟩ <;>
      cases t <;> cases u <;>
      simp_all [addStep, AddInv, AddSt.pc, AddSt.loc, AddSt.setPc,
        AddSt.setLoc, AddSt.setLock, AddSt.setFile]
  · rcases hc with ⟨hq, hf, hg⟩ | ⟨hq, hsub⟩ | ⟨hq, hf, hg, hh⟩
    · cases t <;> cases u <;>
        simp_all [addStep, AddInv, AddSt.pc, AddSt.loc, AddSt.setPc,
          AddSt.setLoc, AddSt.setLock, AddSt.setFile]
    · rcases hsub with ⟨hq1, hf1⟩ | ⟨hq1, hf1, hg1⟩ | ⟨hq1, hf1, hg1⟩ <;>
        cases t <;> cases u <;>
        simp_all [addStep, AddInv, AddSt.pc, AddSt.loc, AddSt.setPc,
          AddSt.setLoc, AddSt.setLock, AddSt.setFile]
    · cases t <;> cases u <;>
        simp_all [addStep, AddInv, AddSt.pc, AddSt.loc, AddSt.setPc,
          AddSt.setLoc, AddSt.setLock, AddSt.setFile]

/-- The invariant holds after running any schedule from the start state. -/
theorem addInv_run (task : Bool → String) (now : Bool → Nat) (L : List Item)
    (sched : List Bool) : AddInv task now L (addRun task now L sched) := by
  suffices h : ∀ (sc : List Bool) (s : AddSt), AddInv task now L s →
      AddInv task now L (sc.foldl (addStep task now) s) by
    exact h sched (addMachineStart L) (Or.inl ⟨rfl, rfl, rfl, rfl⟩)
  intro sc
  induction sc with
  | nil => intro s hs; exact hs
  | cons u rest ih =>
    intro s hs
    exact ih _ (addInv_step task now L s u hs)

/-- `strconv.Atoi` fidelity at the 64-bit boundary: a numeral exceeding the
`int` range is a parse error (`ErrRange`), so `validateID` classifies it as
`ErrInvalidData` — the 400 path, not the 404 path. -/
theorem validateID_overflow_is_invalidData :
    atoi "10000000000000000000" = Option.none ∧
    atoi "9223372036854775807" = some 9223372036854775807 ∧
    validateID "10000000000000000000" [⟨"t", false, 0⟩] =
      .error .invalidData :=
  ⟨rfl, rfl, rfl⟩

/-! ## Claim theorems -/

/-- C1: identifier validation succeeds with the parsed integer `i` iff the
segment parses as a base-10 integer with `1 ≤ i ≤ len(L)`; it fails with
`ErrInvalidData` when the segment is not a valid integer or the integer is
less than one, and with `ErrNoFound` when the integer exceeds `len(L)`. -/
theorem validateID_characterization (s : String) (L : List Item) :
    (∀ i : Int, validateID s L = .ok i ↔
        atoi s = some i ∧ 1 ≤ i ∧ i ≤ (L.length : Int)) ∧
    (validateID s L = .error .invalidData ↔
        atoi s = Option.none ∨ ∃ i, atoi s = some i ∧ i < 1) ∧
    (validateID s L = .error .noFound ↔
        ∃ i, atoi s = some i ∧ 1 ≤ i ∧ (L.length : Int) < i) := by
  unfold validateID
  cases h : atoi s with
  | none => simp
  | some id =>
    refine ⟨fun i => ?_, ?_, ?_⟩ <;>
      · dsimp only
        split_ifs with h1 h2 <;> simp_all <;> omega

/-- C2 counterexample: a POST to the exact root path is answered 200 with the
fixed text, although the method is not GET — `rootHandler` never inspects the
method. -/
theorem rootHandler_method_not_checked :
    rootHandler ⟨"POST", "/", false, Option.none⟩ =
      .text 200 "There's an API here" ∧
    ("POST" : String) ≠ "GET" := by
  exact ⟨rfl, by decide⟩

/-- C2 (amended): the root handler replies 200 with the fixed text exactly
when the path is `/`, regardless of the method; for any other path it replies
404. -/
theorem rootHandler_spec (r : Request) :
    rootHandler r =
      if r.path = "/" then .text 200 "There's an API here"
      else .error 404 "" := by
  unfold rootHandler
  by_cases h : r.path = "/" <;> simp [h]

/-- C3: a PATCH carrying a valid identifier but no `complete` query key is
answered 400 with the missing-parameter message and produces no effect: the
list is never completed and never saved, whatever the save outcome would have
been. -/
theorem patch_missing_complete (L : List Item) (now : Nat)
    (saveErr : Option String) (s : String) (b : Option JVal) (id : Int)
    (hv : validateID s L = .ok id) :
    todoRouter (.ok L) now saveErr ⟨"PATCH", s, false, b⟩ =
      (.error 400 "Missing query param 'complete'", .none) := by
  obtain ⟨-, -, hs⟩ := validateID_ok_bounds hv
  unfold todoRouter
  dsimp only
  rw [if_neg hs, hv]
  rfl

/-- C3 witness: PATCH `/todo/1` with no query on a one-element list. -/
theorem patch_missing_complete_witness :
    todoRouter (.ok [⟨"t", false, 0⟩]) 0 Option.none
        ⟨"PATCH", "1", false, Option.none⟩ =
      (.error 400 "Missing query param 'complete'", .none) :=
  patch_missing_complete [⟨"t", false, 0⟩] 0 Option.none "1" Option.none 1
    (by rfl)

/-- C4: under the validation precondition `validateID s L = ok id`, the slice
`(*list)[id-1:id]` taken by `getOneHandler` is in bounds and contains exactly
the item at position `id`; the panic branch is unreachable and the handler
replies 200 with that single item. -/
theorem getOneHandler_safe (s : String) (L : List Item) (id : Int)
    (hv : validateID s L = .ok id) :
    ∃ it, L[id.toNat - 1]? = some it ∧
      goSlice L (id.toNat - 1) id.toNat = some [it] ∧
      getOneHandler L id.toNat = (.json 200 [it], .none) := by
  obtain ⟨h1, h2, -⟩ := validateID_ok_bounds hv
  have hn : id.toNat - 1 < L.length := by omega
  have hslice : goSlice L (id.toNat - 1) id.toNat =
      some [L.get ⟨id.toNat - 1, hn⟩] := by
    unfold goSlice
    rw [if_pos ⟨by omega, by omega⟩,
      show id.toNat - (id.toNat - 1) = 1 by omega]
    rw [List.take_one_drop_eq_of_lt_length hn]
  refine ⟨L.get ⟨id.toNat - 1, hn⟩, ?_, hslice, ?_⟩
  · rw [List.getElem?_eq_getElem hn]
    rfl
  · unfold getOneHandler
    rw [hslice]

/-- C4 witness: GET `/todo/1` on a one-element list. -/
theorem getOneHandler_safe_witness :
    ∃ it, ([⟨"t", false, 0⟩] : List Item)[(1 : Int).toNat - 1]? = some it ∧
      goSlice [⟨"t", false, 0⟩] ((1 : Int).toNat - 1) (1 : Int).toNat =
        some [it] ∧
      getOneHandler [⟨"t", false, 0⟩] (1 : Int).toNat =
        (.json 200 [it], .none) :=
  getOneHandler_safe "1" [⟨"t", false, 0⟩] 1 (by rfl)

/-- C5: a successful DELETE of a valid identifier replies 204 with an empty
body and saves the list with the item at position `id` removed: the result
has length `len(L) - 1`, items before position `id` keep their positions, and
every item previously at a position `j > id` now appears at position
`j - 1`. -/
theorem delete_spec (L : List Item) (now : Nat) (s : String) (c : Bool)
    (b : Option JVal) (id : Int) (hv : validateID s L = .ok id) :
    todoRouter (.ok L) now Option.none ⟨"DELETE", s, c, b⟩ =
      (.text 204 "", .save (listDelete L id.toNat)) ∧
    (listDelete L id.toNat).length = L.length - 1 ∧
    (∀ j : Nat, 1 ≤ j → j < id.toNat →
      (listDelete L id.toNat)[j - 1]? = L[j - 1]?) ∧
    (∀ j : Nat, id.toNat < j → j ≤ L.length →
      (listDelete L id.toNat)[j - 2]? = L[j - 1]?) := by
  obtain ⟨h1, h2, hs⟩ := validateID_ok_bounds hv
  have hlt : (L.take (id.toNat - 1)).length = id.toNat - 1 := by
    rw [List.length_take]; omega
  refine ⟨?_, ?_, ?_, ?_⟩
  · unfold todoRouter
    dsimp only
    rw [if_neg hs, hv]
    rfl
  · unfold listDelete
    rw [List.length_append, List.length_take, List.length_drop]
    omega
  · intro j hj1 hj2
    unfold listDelete
    rw [List.getElem?_append_left (by rw [hlt]; omega), List.getElem?_take,
      if_pos (by omega)]
  · intro j hj1 hj2
    unfold listDelete
    rw [List.getElem?_append_right (by rw [hlt]; omega), hlt,
      List.getElem?_drop]
    congr 1
    omega

/-- C5 witness: DELETE `/todo/1` on a two-element list. -/
theorem delete_spec_witness :
    todoRouter (.ok [⟨"a", false, 0⟩, ⟨"b", true, 1⟩]) 0 Option.none
        ⟨"DELETE", "1", false, Option.none⟩ =
      (.text 204 "",
        .save (listDelete [⟨"a", false, 0⟩, ⟨"b", true, 1⟩] (1 : Int).toNat)) ∧
    (listDelete [⟨"a", false, 0⟩, ⟨"b", true, 1⟩] (1 : Int).toNat).length =
      ([⟨"a", false, 0⟩, ⟨"b", true, 1⟩] : List Item).length - 1 ∧
    (∀ j : Nat, 1 ≤ j → j < (1 : Int).toNat →
      (listDelete [⟨"a", false, 0⟩, ⟨"b", true, 1⟩] (1 : Int).toNat)[j - 1]? =
        ([⟨"a", false, 0⟩, ⟨"b", true, 1⟩] : List Item)[j - 1]?) ∧
    (∀ j : Nat, (1 : Int).toNat < j →
        j ≤ ([⟨"a", false, 0⟩, ⟨"b", true, 1⟩] : List Item).length →
      (listDelete [⟨"a", false, 0⟩, ⟨"b", true, 1⟩] (1 : Int).toNat)[j - 2]? =
        ([⟨"a", false, 0⟩, ⟨"b", true, 1⟩] : List Item)[j - 1]?) :=
  delete_spec [⟨"a", false, 0⟩, ⟨"b", true, 1⟩] 0 "1" false Option.none 1
    (by rfl)

/-- C6: a successful POST whose body decodes to a task replies 201 with an
empty body and saves the list extended by one: the result has length
`len(L) + 1`, the first `len(L)` elements are unchanged, and the last element
carries the given task text with `done = false`. -/
theorem add_spec (L : List Item) (task : String) (now : Nat) (c : Bool)
    (b : Option JVal) (hd : decodeBody b = .ok task) :
    todoRouter (.ok L) now Option.none ⟨"POST", "", c, b⟩ =
      (.text 201 "", .save (listAdd L task now)) ∧
    (listAdd L task now).length = L.length + 1 ∧
    (∀ j : Nat, j < L.length → (listAdd L task now)[j]? = L[j]?) ∧
    (listAdd L task now).getLast? = some ⟨task, false, now⟩ := by
  refine ⟨?_, ?_, ?_, ?_⟩
  · unfold todoRouter
    dsimp only
    rw [if_pos rfl]
    unfold addHandler
    dsimp only
    rw [hd]
    rfl
  · simp [listAdd]
  · intro j hj
    unfold listAdd
    rw [List.getElem?_append_left hj]
  · exact List.getLast?_concat _

/-- C6 witness: POST `{"task":"buy milk"}` to an empty list. -/
theorem add_spec_witness :
    todoRouter (.ok []) 7 Option.none
        ⟨"POST", "", false, some (.jobj [("task", .jstr "buy milk")])⟩ =
      (.text 201 "", .save (listAdd [] "buy milk" 7)) ∧
    (listAdd [] "buy milk" 7).length = ([] : List Item).length + 1 ∧
    (∀ j : Nat, j < ([] : List Item).length →
      (listAdd [] "buy milk" 7)[j]? = ([] : List Item)[j]?) ∧
    (listAdd [] "buy milk" 7).getLast? = some ⟨"buy milk", false, 7⟩ :=
  add_spec [] "buy milk" 7 false (some (.jobj [("task", .jstr "buy milk")]))
    (by rfl)

/-- C7: completing an already-completed item is not an error: the PATCH with
the `complete` key replies 204 and saves the list unchanged, and the
spec-modelled `Complete` is idempotent — a second application leaves the
state of the first. -/
theorem complete_idempotent (L : List Item) (now : Nat) (s : String)
    (b : Option JVal) (id : Int) (hv : validateID s L = .ok id)
    (hd : L[id.toNat - 1]?.map Item.done = some true) :
    todoRouter (.ok L) now Option.none ⟨"PATCH", s, true, b⟩ =
      (.text 204 "", .save L) ∧
    listComplete L id.toNat = L ∧
    listComplete (listComplete L id.toNat) id.toNat =
      listComplete L id.toNat := by
  obtain ⟨h1, h2, hs⟩ := validateID_ok_bounds hv
  obtain ⟨it, hit, hdone⟩ : ∃ it, L[id.toNat - 1]? = some it ∧
      it.done = true := by
    cases hg : L[id.toNat - 1]? with
    | none => rw [hg] at hd; cases hd
    | some it =>
      rw [hg] at hd
      exact ⟨it, rfl, by simpa using hd⟩
  have hset : { it with done := true } = it := by
    cases it; simp_all
  have hc : listComplete L id.toNat = L := by
    unfold listComplete
    rw [List.get?_eq_getElem?, hit]
    dsimp only
    rw [hset]
    apply List.ext_getElem?
    intro j
    rw [List.getElem?_set]
    split_ifs with hj1 hj2
    · subst hj1; rw [hit]
    · subst hj1
      rw [List.getElem?_eq_none (Nat.le_of_not_lt hj2)] at hit
      cases hit
    · rfl
  refine ⟨?_, hc, by rw [hc]; exact hc⟩
  unfold todoRouter
  dsimp only
  rw [if_neg hs, hv]
  show pathHandler _ L id.toNat Option.none = _
  unfold pathHandler
  dsimp only
  rw [hc]
  simp

/-- C7 witness: PATCH `/todo/1?complete` on a list whose only item is already
done. -/
theorem complete_idempotent_witness :
    todoRouter (.ok [⟨"t", true, 0⟩]) 0 Option.none
        ⟨"PATCH", "1", true, Option.none⟩ =
      (.text 204 "", .save [⟨"t", true, 0⟩]) ∧
    listComplete [⟨"t", true, 0⟩] (1 : Int).toNat = [⟨"t", true, 0⟩] ∧
    listComplete (listComplete [⟨"t", true, 0⟩] (1 : Int).toNat)
        (1 : Int).toNat =
      listComplete [⟨"t", true, 0⟩] (1 : Int).toNat :=
  complete_idempotent [⟨"t", true, 0⟩] 0 "1" Option.none 1 (by rfl) (by rfl)

/-- C9: a POST whose body is a JSON object with no field matching `task`
does not fail with 400: the task decodes to the empty string, a new
incomplete item with empty task text is appended and saved, and the reply is
201. -/
theorem add_missing_task_field (L : List Item) (fs : List (String × JVal))
    (now : Nat) (c : Bool)
    (hm : fs.find? (fun p => jsonKeyIsTask p.1) = Option.none) :
    todoRouter (.ok L) now Option.none ⟨"POST", "", c, some (.jobj fs)⟩ =
      (.text 201 "", .save (listAdd L "" now)) ∧
    (listAdd L "" now).getLast? = some ⟨"", false, now⟩ := by
  have hd : decodeBody (some (.jobj fs)) = .ok "" := by
    show decodeTask (.jobj fs) = .ok ""
    unfold decodeTask
    dsimp only
    rw [hm]
  refine ⟨?_, List.getLast?_concat _⟩
  unfold todoRouter
  dsimp only
  rw [if_pos rfl]
  unfold addHandler
  dsimp only
  rw [hd]
  rfl

/-- C9 witness: POST `{"other":1}` to an empty list. -/
theorem add_missing_task_field_witness :
    todoRouter (.ok []) 3 Option.none
        ⟨"POST", "", false, some (.jobj [("other", .jnum 1)])⟩ =
      (.text 201 "", .save (listAdd [] "" 3)) ∧
    (listAdd [] "" 3).getLast? = some ⟨"", false, 3⟩ :=
  add_missing_task_field [] [("other", .jnum 1)] 3 false (by rfl)

/-- C8: when the initial load of the list fails, the todo router replies 500
and performs no dispatch: for every request (any method, path, query, body)
the result is the 500 error with no save, independent of the request. -/
theorem todoRouter_load_failure (e : String) (now : Nat)
    (saveErr : Option String) (r : Request) :
    todoRouter (.error e) now saveErr r = (.error 500 e, .none) := rfl

/-- C10: the lock serializes two concurrent Add requests.  In every
interleaving in which both requests complete, one thread ran its whole
load-add-save cycle first: the second to acquire the lock loaded the list
already containing the first's item, the final file holds both items in
acquisition order, and the two threads read lists of different lengths — the
pre-mutation length is never read twice (no lost update). -/
theorem add_no_lost_update (task : Bool → String) (now : Bool → Nat)
    (L : List Item) (sched : List Bool)
    (hT : (addRun task now L sched).pc true = 4)
    (hF : (addRun task now L sched).pc false = 4) :
    ∃ t : Bool,
      (addRun task now L sched).loc t = L ∧
      (addRun task now L sched).loc (!t) = listAdd L (task t) (now t) ∧
      (addRun task now L sched).file =
        listAdd (listAdd L (task t) (now t)) (task (!t)) (now (!t)) ∧
      ((addRun task now L sched).loc t).length ≠
        ((addRun task now L sched).loc (!t)).length := by
  have hinv := addInv_run task now L sched
  rcases hinv with ⟨h1, h2, h3, h4⟩ | ⟨t, hl, hp0, hc⟩ | ⟨t, hp4, hloc, hc⟩
  · omega
  · cases t <;> simp_all
  · rcases hc with ⟨hq, hl2, hf⟩ | ⟨hl2, hsub⟩ | ⟨hq, hl2, hloc2, hfile⟩
    · cases t <;> simp_all
    · rcases hsub with ⟨hq1, hf1⟩ | ⟨hq1, hf1, hg1⟩ | ⟨hq1, hf1, hg1⟩ <;>
        cases t <;> simp_all
    · refine ⟨t, hloc, hloc2, hfile, ?_⟩
      rw [hloc, hloc2]
      simp [listAdd]

/-- C10 witness: the schedule where thread `false` runs its whole critical
section and then thread `true` runs; both complete, and the conclusion is
evaluated on it. -/
theorem add_no_lost_update_witness :
    ∃ t : Bool,
      (addRun (fun _ => "x") (fun _ => 0) []
          [false, false, false, false, true, true, true, true]).loc t = [] ∧
      (addRun (fun _ => "x") (fun _ => 0) []
          [false, false, false, false, true, true, true, true]).loc (!t) =
        listAdd [] "x" 0 ∧
      (addRun (fun _ => "x") (fun _ => 0) []
          [false, false, false, false, true, true, true, true]).file =
        listAdd (listAdd [] "x" 0) "x" 0 ∧
      ((addRun (fun _ => "x") (fun _ => 0) []
          [false, false, false, false, true, true, true, true]).loc t).length ≠
        ((addRun (fun _ => "x") (fun _ => 0) []
          [false, false, false, false, true, true, true,
            true]).loc (!t)).length :=
  add_no_lost_update (fun _ => "x") (fun _ => 0) []
    [false, false, false, false, true, true, true, true] (by rfl) (by rfl)

end TodoServer
